import Mathlib

set_option maxRecDepth 8000

/-!
Verification development for the `step_3_consumer_app.ipynb` Kafka consumer
notebook (PM2.5 stream analysis).

The notebook's logic is embedded shallowly:

* an incoming decoded message (the result of `json.loads`) is a `Json` value;
* the accumulated table `df` is a `List Row` in arrival (append) order;
* `event_notification` is translated from the notebook cell of the same name:
  it groups by exact (lat, lon) equality, computes the pandas
  `rolling(3)['value'].mean()` within the current key's group (a window is NaN
  unless all three values are non-NaN, the pandas `min_periods` default),
  drops the NaN windows (`dropna`) and reads the last remaining one
  (`.index[-1]` / `.loc`); any failure along the way — empty table, no full
  window for the key — is swallowed by the notebook's bare `except: pass`,
  which we model as `none` (no decision, no printed line);
* the consumer loop is `consume`: the notebook's `try`/`except KeyboardInterrupt`
  does NOT catch decode failures, so a malformed message aborts the loop
  (the exception propagates past the `while`), which `consume` models by
  stopping with the error and leaving the remaining messages unprocessed;
* the presentation cells (`gdf['valid']`, `recent_date`, `active_boxes`,
  `inactive_boxes`) are pure functions of the accumulated table, matching the
  notebook, which never writes back into `df`.

Floating point values are modelled as `ℚ`, with NaN represented explicitly as
`Option.none` where the notebook can observe it (the `value` column, whose NaN
entries drive the `valid` flag and the rolling-window NaNs). Kafka transport
errors, timeouts and the map widgets are outside the model, as in the spec's
non-goals.
-/

/-- Decoded JSON values as produced by Python's `json.loads`. Python's `json`
module additionally accepts the literal `NaN`, which the producer uses for
missing readings, hence the extra `nan` constructor. -/
inductive Json where
  | null
  | bool (b : Bool)
  | num (q : ℚ)
  | str (s : String)
  | nan
  | arr (xs : List Json)
  | obj (kvs : List (String × Json))

/-- Equality as the notebook's comparisons use it: pandas `==` / `groupby`
semantics. `NaN` compares unequal to everything (so `groupby` drops NaN keys
and `day == recent_date` is false on NaN days); `None` keys are likewise
dropped by `groupby`; scalars compare by value and never across types; and
containers (unhashable in Python, so they can never act as a group key, and a
list never equals a string) are treated as never equal. -/
def cmpEq : Json → Json → Bool
  | Json.bool a, Json.bool b => decide (a = b)
  | Json.num a, Json.num b => decide (a = b)
  | Json.str a, Json.str b => decide (a = b)
  | _, _ => false

/-- One row of the accumulated table `df`, in the notebook's column order
`lat, lon, value, day, boxId`. The `lat`, `lon`, `day` and `boxId` fields are
stored exactly as extracted from the message (the notebook performs no type
validation on them); `value` comes from `float(key)` and is therefore a float,
with `none` modelling NaN. -/
structure Row where
  lat : Json
  lon : Json
  value : Option ℚ
  day : Json
  boxId : Json

/-- The classified outcome of `event_notification` for one received reading:
the timestamp and sensebox label of the row just appended, the rolling mean
the code compares against the threshold, and whether the warning fired. -/
structure AlertDecision where
  day : Json
  boxId : Json
  mean : ℚ
  fired : Bool

/-- The ways the message-decoding block of the consumer loop can raise:
`json.loads` on a non-object / `.keys()` on a non-dict (`notObject`),
`list(input.keys())[0]` on an empty dict (`emptyObject`), indexing a
non-indexable value (`notIndexable`), fewer than four elements
(`shortList`), or `float(key)` on a non-numeric key (`badFloat`). Which
exception type fires first is irrelevant downstream: each aborts the loop. -/
inductive DecodeError where
  | notObject
  | emptyObject
  | notIndexable
  | shortList
  | badFloat

/-- One line printed by `event_notification`: the warning line (with the mean
rounded to two decimals) or the safe line. -/
inductive LogLine where
  | warning (boxId day : Json) (pm : ℚ)
  | safe (boxId day : Json)

/-- All characters are decimal digits. -/
def allDigits (cs : List Char) : Bool := cs.all Char.isDigit

/-- Value of a digit string, most significant first (callers check
`allDigits`). -/
def digitsToNat (cs : List Char) : ℕ :=
  cs.foldl (fun acc c => 10 * acc + (c.toNat - 48)) 0

/-- Unsigned decimal numeral `digits[.digits]` (either side of the point may
be empty, but not both), as accepted by Python's `float`. -/
def parseUnsigned (cs : List Char) : Option ℚ :=
  let ip := cs.takeWhile (fun c => c ≠ '.')
  let rest := cs.dropWhile (fun c => c ≠ '.')
  match rest with
  | [] => if allDigits ip && !ip.isEmpty then some (digitsToNat ip) else none
  | _ :: fp =>
    if allDigits ip && allDigits fp && !(ip.isEmpty && fp.isEmpty) then
      some ((digitsToNat ip : ℚ) + (digitsToNat fp : ℚ) / (10 : ℚ) ^ fp.length)
    else none

/-- Python's `float(str)` as the producer exercises it: an optional sign, a
plain decimal numeral, or the NaN spellings (`some none` is NaN; `none` is a
`ValueError`). Exponents, infinities, surrounding whitespace and digit
underscores, which this stream never contains, are not modelled. -/
def parseFloat? (s : String) : Option (Option ℚ) :=
  if s = "nan" || s = "NaN" || s = "NAN" then some none
  else
    match s.data with
    | '-' :: rest => (parseUnsigned rest).map (fun q => some (-q))
    | '+' :: rest => (parseUnsigned rest).map (fun q => some q)
    | cs => (parseUnsigned cs).map (fun q => some q)

/-- The decoding block of the consumer loop:
`key = list(input.keys())[0]` followed by the `stream` dict literal
`{'lat': input[key][0], 'lon': input[key][1], 'day': input[key][2],
'value': float(key), 'boxId': input[key][3]}`. Python evaluates
`input[key][0..2]` before `float(key)` before `input[key][3]`, so when a
message is broken in several ways a different exception type may fire first
than the constructor chosen here; all of them abort identically. A Python
string of length ≥ 4 is also indexable (yielding one-character strings),
which the `.str` branch reproduces. -/
def parseMsg (input : Json) : Except DecodeError Row :=
  match input with
  | Json.obj [] => Except.error DecodeError.emptyObject
  | Json.obj ((k, v) :: _) =>
    match v with
    | Json.arr fields =>
      match fields with
      | f0 :: f1 :: f2 :: f3 :: _ =>
        match parseFloat? k with
        | none => Except.error DecodeError.badFloat
        | some val => Except.ok ⟨f0, f1, val, f2, f3⟩
      | _ => Except.error DecodeError.shortList
    | Json.str s =>
      match s.data with
      | c0 :: c1 :: c2 :: c3 :: _ =>
        match parseFloat? k with
        | none => Except.error DecodeError.badFloat
        | some val =>
          Except.ok ⟨Json.str c0.toString, Json.str c1.toString, val,
            Json.str c2.toString, Json.str c3.toString⟩
      | _ => Except.error DecodeError.shortList
    | _ => Except.error DecodeError.notIndexable
  | _ => Except.error DecodeError.notObject

/-- One pandas rolling window of size 3: the mean when all three values are
non-NaN, NaN otherwise (`rolling(3)` keeps the default
`min_periods = window`, so any NaN in the window makes the result NaN). -/
def win : Option ℚ → Option ℚ → Option ℚ → Option ℚ
  | some a, some b, some c => some ((a + b + c) / 3)
  | _, _, _ => none

/-- Tail of the rolling computation: `a` and `b` are the two values
preceding the remaining list. -/
def roll3 : Option ℚ → Option ℚ → List (Option ℚ) → List (Option ℚ)
  | _, _, [] => []
  | a, b, c :: rest => win a b c :: roll3 b c rest

/-- `rolling(3)['value'].mean()` restricted to one group, position by
position in within-group (arrival) order: the first two positions are NaN,
afterwards each position carries `win` of the last three values. -/
def rolling3 : List (Option ℚ) → List (Option ℚ)
  | [] => []
  | [_] => [none]
  | v₁ :: v₂ :: rest => none :: none :: roll3 v₁ v₂ rest

/-- `dropna` followed by `.index[-1]` and `.loc[..., 'value']` on the
group's rolling column: the last window value that is not NaN, if any. -/
def lastFullMean (vs : List (Option ℚ)) : Option ℚ :=
  ((rolling3 vs).filterMap id).getLast?

/-- The group predicate `(rolling_average['lat'] == current_lat) &
(rolling_average['lon'] == current_lon)`, under pandas equality. -/
def sameLoc (a b : Row) : Bool := cmpEq a.lat b.lat && cmpEq a.lon b.lon

/-- The decision for the current row given its group's rows in arrival
order: no full window means the notebook's `.index[-1]` raises and the bare
`except` swallows it (no decision); otherwise the mean is compared strictly
against the threshold (`if pm_value > pm_threshold`). -/
def decideForGroup (cur : Row) (grp : List Row) (thr : ℚ) : Option AlertDecision :=
  match lastFullMean (grp.map Row.value) with
  | none => none
  | some m => some ⟨cur.day, cur.boxId, m, decide (m > thr)⟩

/-- The notebook's `event_notification(df, pm_threshold)`: on an empty table
`df.iloc[df.shape[0] - 1]` raises (swallowed, no decision); otherwise the
current row is the last row, its group is every row with pandas-equal
lat/lon, and the decision comes from the group's last full rolling window. -/
def event_notification (df : List Row) (thr : ℚ) : Option AlertDecision :=
  df.getLast?.bind fun cur =>
    decideForGroup cur (df.filter (fun x => sameLoc x cur)) thr

/-- One consumer-loop step once a message decoded successfully:
`df = df.append(stream, ignore_index=True)` followed by
`event_notification(df, pm_threshold)`. -/
def ingest (df : List Row) (r : Row) (thr : ℚ) : List Row × Option AlertDecision :=
  (df ++ [r], event_notification (df ++ [r]) thr)

/-- Rounding to two decimals, for the warning line's `round(pm_value, 2)`.
Python rounds exact halves to even; no stream value hits an exact half, and
no claim depends on tie behaviour. -/
def round2 (q : ℚ) : ℚ := (round (q * 100) : ℤ) / 100

/-- The lines `event_notification` prints for one decision: nothing during
warm-up, else exactly one warning or safe line. -/
def emit : Option AlertDecision → List LogLine
  | none => []
  | some d =>
    if d.fired then [LogLine.warning d.boxId d.day (round2 d.mean)]
    else [LogLine.safe d.boxId d.day]

/-- The consumer loop over the successfully delivered message payloads, in
delivery order. A decode failure is not caught (the notebook's only handler
is `except KeyboardInterrupt`), so the loop stops there: the failing and all
later messages are dropped and the error surfaces. Kafka transport errors
and the poll timeout are outside the model. -/
def consume : List Row → List Json → ℚ → List Row × List LogLine × Option DecodeError
  | df, [], _ => (df, [], none)
  | df, m :: ms, thr =>
    match parseMsg m with
    | Except.error e => (df, [], some e)
    | Except.ok r =>
      let res := ingest df r thr
      let rest := consume res.1 ms thr
      (rest.1, emit res.2 ++ rest.2.1, rest.2.2)

/-- `gdf['valid'] = gdf['value'].apply(lambda x: False if math.isnan(x) else True)`. -/
def isValid (r : Row) : Bool := r.value.isSome

/-- The geometry column built by `points_from_xy(df.lon, df.lat)`: a point is
the (x, y) = (lon, lat) pair. -/
def geomOf (r : Row) : Json × Json := (r.lon, r.lat)

/-- Day strings; pandas `.max()` skips NaN entries, which `dayStr?` models by
returning `none` off strings (valid rows of this stream carry string days). -/
def dayStr? : Json → Option String
  | Json.str s => some s
  | _ => none

/-- Maximum of a list of day strings (pandas `Series.max` on the object
column: lexicographically greatest, `NaN`/empty giving `NaN`). -/
def maxDay : List String → Option String
  | [] => none
  | d :: ds =>
    match maxDay ds with
    | none => some d
    | some m => some (if d < m then m else d)

/-- `valid_boxes = gdf[gdf['valid'] == True]; recent_date = valid_boxes['day'].max()`:
the greatest day string among the non-NaN-valued rows. -/
def recentDate (h : List Row) : Option String :=
  maxDay ((h.filter isValid).filterMap (fun r => dayStr? r.day))

/-- Equality as pandas `drop_duplicates` uses it: like `cmpEq`, except that
two NaN entries do count as duplicates of each other. -/
def dedupEq : Json → Json → Bool
  | Json.nan, Json.nan => true
  | a, b => cmpEq a b

/-- `drop_duplicates` on the geometry column: pointwise on (lon, lat). -/
def geomEq (p q : Json × Json) : Bool := dedupEq p.1 q.1 && dedupEq p.2 q.2

/-- `drop_duplicates(subset=...)` keeping the first occurrence of each key
already seen. -/
def dedupByAux {α β : Type} (f : β → α) (eq : α → α → Bool) :
    List α → List β → List β
  | _, [] => []
  | seen, r :: rs =>
    if seen.any (fun s => eq s (f r)) then dedupByAux f eq seen rs
    else r :: dedupByAux f eq (seen ++ [f r]) rs

/-- `active_boxes`: the rows whose `day` equals `recent_date` (pandas `==`,
so false when `recent_date` is NaN), first occurrence per `boxId`, keeping
their geometries. -/
def activeBoxes (h : List Row) : List (Json × Json) :=
  match recentDate h with
  | none => []
  | some rd =>
    (dedupByAux Row.boxId dedupEq []
      (h.filter (fun r => cmpEq r.day (Json.str rd)))).map geomOf

/-- `inactive_boxes`: the rows whose `valid` flag is false (NaN value),
first occurrence per geometry, keeping their geometries. -/
def inactiveBoxes (h : List Row) : List (Json × Json) :=
  (dedupByAux geomOf geomEq [] (h.filter (fun r => !isValid r))).map geomOf

/-- Modelled from the spec: "the returned mean equals the arithmetic mean of
exactly the most recent N values in arrival order" — the arithmetic mean of
the last three values of the key's history, which as a float computation is
defined (non-NaN) only when three values exist and none is NaN. Used to
compare the code's window choice against the claim's words. -/
def specLast3Mean (vs : List (Option ℚ)) : Option ℚ :=
  match vs.reverse with
  | some c :: some b :: some a :: _ => some ((a + b + c) / 3)
  | _ => none

/-- The sensebox label of the first sensor in the notebook's captured run. -/
def boxJson : Json := Json.str "5750220bed08f9680c6b4154"

/-- A row for one fixed sensor location, as the consumer loop would build it
(integer test coordinates; no claim constrains the coordinate values). -/
def mkRow (v : Option ℚ) (d : String) : Row :=
  ⟨Json.num 51, Json.num 7, v, Json.str d, boxJson⟩

/-- A well-formed stream message for that sensor: the stringified PM value as
the sole key, mapped to `[lat, lon, day, boxId]`. -/
def mkMsg (k : String) (d : String) : Json :=
  Json.obj [(k, Json.arr [Json.num 51, Json.num 7, Json.str d, boxJson])]

/-- The last three readings of the first sensor in the captured run, the ones
behind the reference "25.88" warning line. -/
def sampleDf : List Row :=
  [mkRow (some 12.757133) "2022-01-23T15:00:00.000Z",
   mkRow (some 26.606711) "2022-01-24T16:00:00.000Z",
   mkRow (some 38.289267) "2022-01-25T17:00:00.000Z"]

/-- The decision the embedding produces on `sampleDf`: mean
(12.757133 + 26.606711 + 38.289267) / 3 = 77653111/3000000 ≈ 25.884,
warning fired. -/
def sampleDecision : AlertDecision :=
  ⟨Json.str "2022-01-25T17:00:00.000Z", boxJson,
    (12.757133 + 26.606711 + 38.289267) / 3,
    decide (((12.757133 + 26.606711 + 38.289267 : ℚ) / 3) > 20)⟩

/-- Three non-NaN readings for one key, about to be followed by a NaN one. -/
def cexDf : List Row := [mkRow (some 5) "d1", mkRow (some 6) "d2", mkRow (some 7) "d3"]

/-- A NaN-valued reading for the same key (the producer emits `NaN` for
sensors that returned no value). -/
def nanRow : Row := mkRow none "d4"

/-- A message the decoder rejects: `json.loads` yields a number, so
`.keys()` raises. -/
def badMsg : Json := Json.num 5

/-- A well-formed message, used to show what a decode failure prevents from
being processed. -/
def goodMsg : Json := mkMsg "5" "2022-01-21T13:00:00.000Z"

/-- A reading of sensor A at location (1, 1). -/
def rowA (v : Option ℚ) (d : String) : Row :=
  ⟨Json.num 1, Json.num 1, v, Json.str d, Json.str "boxA"⟩

/-- A reading of sensor B at location (2, 2). -/
def rowB (v : Option ℚ) (d : String) : Row :=
  ⟨Json.num 2, Json.num 2, v, Json.str d, Json.str "boxB"⟩

/-- A history in which sensor B is neither active (its only reading predates
the most recent date) nor inactive (it has no NaN reading). -/
def hPart : List Row := [rowA (some 1) "d1", rowA (some 2) "d2", rowB (some 1) "d1"]

/-- A history whose latest timestamp ("d2") sits on a NaN-valued reading:
`recent_date`, computed from valid rows only, stays at "d1". -/
def hLate : List Row := [rowA (some 1) "d1", rowB none "d2"]

/-- A history with a NaN-valued reading dated at the most recent date:
sensor B lands in both marker sets. -/
def hBoth : List Row := [rowA (some 1) "d", rowB none "d"]

theorem cmpEq_eq {a b : Json} (h : cmpEq a b = true) : a = b := by
  cases a <;> cases b <;> simp_all [cmpEq]

theorem filterMap_getLast_some {α : Type} (l : List (Option α)) (m : α) :
    ((l ++ [some m]).filterMap id).getLast? = some m := by
  induction l with
  | nil => rfl
  | cons w l ih =>
    cases w with
    | none => simp only [List.cons_append, List.filterMap_cons, id]; exact ih
    | some a =>
      rcases hL : (l ++ [some m]).filterMap id with _ | ⟨b, t⟩
      · rw [hL] at ih; simp at ih
      · simp only [List.cons_append, List.filterMap_cons, id]
        rw [hL, List.getLast?_cons_cons, ← hL, ih]

theorem roll3_append3 (x y z : ℚ) (rest : List (Option ℚ)) :
    ∀ a b : Option ℚ, ∃ L,
      roll3 a b (rest ++ [some x, some y, some z]) = L ++ [some ((x + y + z) / 3)] := by
  induction rest with
  | nil =>
    intro a b
    exact ⟨[win a b (some x), win b (some x) (some y)], rfl⟩
  | cons c rest ih =>
    intro a b
    obtain ⟨L, hL⟩ := ih b c
    refine ⟨win a b c :: L, ?_⟩
    show win a b c :: roll3 b c (rest ++ [some x, some y, some z]) = _
    rw [hL]
    rfl

theorem lastFullMean_append3 (vs : List (Option ℚ)) (x y z : ℚ) :
    lastFullMean (vs ++ [some x, some y, some z]) = some ((x + y + z) / 3) := by
  rcases vs with _ | ⟨v₁, _ | ⟨v₂, rest⟩⟩
  · rfl
  · cases v₁ <;> rfl
  · obtain ⟨L, hL⟩ := roll3_append3 x y z rest v₁ v₂
    show ((roll3 v₁ v₂ (rest ++ [some x, some y, some z])).filterMap id).getLast? = _
    rw [hL]
    exact filterMap_getLast_some L _

theorem lastFullMean_short (vs : List (Option ℚ)) (h : vs.length < 3) :
    lastFullMean vs = none := by
  rcases vs with _ | ⟨a, _ | ⟨b, _ | ⟨c, t⟩⟩⟩
  · rfl
  · rfl
  · rfl
  · simp at h; omega

theorem dedupByAux_subset {α β : Type} (f : β → α) (eq : α → α → Bool)
    (rows : List β) : ∀ (seen : List α) (x : β), x ∈ dedupByAux f eq seen rows → x ∈ rows := by
  induction rows with
  | nil => intro seen x hx; simp [dedupByAux] at hx
  | cons r rs ih =>
    intro seen x hx
    simp only [dedupByAux] at hx
    split at hx
    · exact List.mem_cons_of_mem _ (ih _ _ hx)
    · rcases List.mem_cons.mp hx with h | h
      · exact h ▸ List.mem_cons_self _ _
      · exact List.mem_cons_of_mem _ (ih _ _ h)

/-- C2: for every key whose history (including the reading just ingested)
contains fewer than N = 3 readings, `ingest` returns no decision, emits no
notification line at all (neither warning nor safe), and this warm-up state
is non-erroneous: the consumer loop simply proceeds to the remaining
messages with the reading appended. -/
theorem C2_warmup_no_decision (df : List Row) (r : Row) (thr : ℚ)
    (h : ((df ++ [r]).filter (fun x => sameLoc x r)).length < 3) :
    (ingest df r thr).2 = none ∧
    emit (ingest df r thr).2 = [] ∧
    ∀ (m : Json) (ms : List Json), parseMsg m = Except.ok r →
      consume df (m :: ms) thr = consume (df ++ [r]) ms thr := by
  have hlen : (((df ++ [r]).filter (fun x => sameLoc x r)).map Row.value).length < 3 := by
    simpa using h
  have hnone : (ingest df r thr).2 = none := by
    show event_notification (df ++ [r]) thr = none
    unfold event_notification
    rw [List.getLast?_concat, Option.some_bind]
    unfold decideForGroup
    rw [lastFullMean_short _ hlen]
  refine ⟨hnone, by rw [hnone]; rfl, ?_⟩
  intro m ms hm
  simp only [consume, hm]
  have h1 : (ingest df r thr).1 = df ++ [r] := rfl
  rw [h1, hnone]
  rfl

/-- C2 witness: a single first reading for a fresh key yields no decision,
no log line, and the loop continues. -/
theorem C2_warmup_witness :
    (ingest [] (mkRow (some 5) "2022-01-21T13:00:00.000Z") 20).2 = none ∧
    emit (ingest [] (mkRow (some 5) "2022-01-21T13:00:00.000Z") 20).2 = [] ∧
    consume [] [goodMsg] 20 =
      consume [mkRow (some 5) "2022-01-21T13:00:00.000Z"] [] 20 := by
  obtain ⟨h1, h2, h3⟩ :=
    C2_warmup_no_decision [] (mkRow (some 5) "2022-01-21T13:00:00.000Z") 20
      (by with_unfolding_all decide)
  exact ⟨h1, h2, h3 goodMsg [] (by with_unfolding_all rfl)⟩

/-- C4 counterexample: the consumer loop's only handler is
`except KeyboardInterrupt`, so a malformed message is NOT dropped-and-skipped:
processing `[badMsg, goodMsg]` stops at `badMsg` with the decode error
surfacing and the well-formed `goodMsg` never ingested (the history stays
empty), contradicting "the consumption loop continues with the next
message". -/
theorem C4_decode_cex :
    parseMsg badMsg = Except.error DecodeError.notObject ∧
    parseMsg goodMsg = Except.ok (mkRow (some 5) "2022-01-21T13:00:00.000Z") ∧
    consume [] [badMsg, goodMsg] 20 = ([], [], some DecodeError.notObject) :=
  ⟨rfl, by with_unfolding_all rfl, rfl⟩

/-- C4 (amended): a message that fails to decode leaves every key's history
unchanged, but the loop does not continue: the exception aborts the
consumption loop, dropping the failing message and every later one. -/
theorem C4_decode_failure_halts (df : List Row) (m : Json) (ms : List Json)
    (thr : ℚ) (e : DecodeError) (h : parseMsg m = Except.error e) :
    consume df (m :: ms) thr = (df, [], some e) := by
  simp only [consume, h]

/-- C4 witness: the halt theorem applied to the concrete malformed message,
with a non-empty prior history left untouched. -/
theorem C4_decode_witness :
    consume [mkRow (some 5) "d1"] [badMsg] 20 =
      ([mkRow (some 5) "d1"], [], some DecodeError.notObject) :=
  C4_decode_failure_halts [mkRow (some 5) "d1"] badMsg [] 20 DecodeError.notObject rfl

/-- C6: the aggregator deduplicates nothing: every `ingest` call — including
one whose reading is identical to an already-present row — appends exactly
one entry, so the history is the old history plus the new row, its length
grows by one, the existing prefix is untouched (nothing removed or
modified), and re-ingesting the same reading appends it again. -/
theorem C6_append_only (df : List Row) (r : Row) (thr : ℚ) :
    (ingest df r thr).1 = df ++ [r] ∧
    ((ingest df r thr).1).length = df.length + 1 ∧
    ((ingest df r thr).1).take df.length = df ∧
    (ingest (ingest df r thr).1 r thr).1 = df ++ [r, r] := by
  refine ⟨rfl, by simp [ingest], ?_, by simp [ingest]⟩
  show (df ++ [r]).take df.length = df
  exact List.take_left df [r]

/-- C7: a well-formed decoded message — a JSON object with exactly one key
mapping to a 4-element list — parses to a `Row` with
`value = float(sole_key)`, `lat = list[0]`, `lon = list[1]`,
`day (timestamp) = list[2]` and `boxId (label) = list[3]`. -/
theorem C7_parse_contract (k : String) (f0 f1 f2 f3 : Json) (v : Option ℚ)
    (h : parseFloat? k = some v) :
    parseMsg (Json.obj [(k, Json.arr [f0, f1, f2, f3])]) =
      Except.ok ⟨f0, f1, v, f2, f3⟩ := by
  show (match parseFloat? k with
    | none => Except.error DecodeError.badFloat
    | some val => Except.ok (⟨f0, f1, val, f2, f3⟩ : Row)) = _
  rw [h]

/-- C7 witness: the parse contract on a concrete one-key message. -/
theorem C7_parse_witness :
    parseMsg (Json.obj [("5", Json.arr [Json.num 51, Json.num 7,
        Json.str "2022-01-21T13:00:00.000Z", boxJson])]) =
      Except.ok ⟨Json.num 51, Json.num 7, some 5,
        Json.str "2022-01-21T13:00:00.000Z", boxJson⟩ :=
  C7_parse_contract "5" (Json.num 51) (Json.num 7)
    (Json.str "2022-01-21T13:00:00.000Z") boxJson (some 5)
    (by with_unfolding_all rfl)

/-- C9 (implicit): when the decoded object has more than one key, the
consumer uses only the first key in iteration order
(`list(input.keys())[0]`) and its list, silently ignoring every other
entry; in particular a two-key object parses without error even though the
documented shape has exactly one key. -/
theorem C9_first_key_only (k : String) (v : Json) (rest : List (String × Json)) :
    parseMsg (Json.obj ((k, v) :: rest)) = parseMsg (Json.obj [(k, v)]) ∧
    parseMsg (Json.obj [("5", Json.arr [Json.num 51, Json.num 7,
        Json.str "2022-01-21T13:00:00.000Z", boxJson]), ("junk", Json.null)]) =
      Except.ok (mkRow (some 5) "2022-01-21T13:00:00.000Z") :=
  ⟨rfl, by with_unfolding_all rfl⟩

theorem specLast3Mean_eq_some {vs : List (Option ℚ)} {m : ℚ}
    (h : specLast3Mean vs = some m) :
    ∃ pre a b c, vs = pre ++ [some a, some b, some c] ∧ m = (a + b + c) / 3 := by
  unfold specLast3Mean at h
  split at h
  · rename_i c b a t heq
    refine ⟨t.reverse, a, b, c, ?_, (Option.some.inj h).symm⟩
    have hv := congrArg List.reverse heq
    simp only [List.reverse_reverse] at hv
    rw [hv]
    simp [List.reverse_cons, List.append_assoc]
  · exact absurd h (by simp)

/-- C1 (amended): for every per-key history and newly ingested reading whose
key has, after the append, at least N = 3 readings the most recent three of
which carry non-NaN values, the mean returned by `ingest` equals the
arithmetic mean of exactly those most recent three values in arrival
(insertion) order — timestamps play no role. (The original claim without
the non-NaN condition fails: see the counterexample, where a NaN in the
newest window makes the code report an older window's mean.) -/
theorem C1_recent_window_mean (df : List Row) (r : Row) (thr m : ℚ)
    (h : specLast3Mean (((df ++ [r]).filter fun x => sameLoc x r).map Row.value) = some m) :
    (ingest df r thr).2 = some ⟨r.day, r.boxId, m, decide (m > thr)⟩ := by
  obtain ⟨pre, a, b, c, hvs, hm⟩ := specLast3Mean_eq_some h
  subst hm
  have hfull : lastFullMean (((df ++ [r]).filter fun x => sameLoc x r).map Row.value) =
      some ((a + b + c) / 3) := by
    rw [hvs]; exact lastFullMean_append3 pre a b c
  show event_notification (df ++ [r]) thr = _
  unfold event_notification
  rw [List.getLast?_concat, Option.some_bind]
  unfold decideForGroup
  rw [hfull]

/-- C1 witness: the amended theorem on a key's third reading, whose decision
carries the mean of the three arrivals. -/
theorem C1_recent_window_witness :
    (ingest [mkRow (some 5) "d1", mkRow (some 6) "d2"] (mkRow (some 7) "d3") 20).2 =
      some ⟨(mkRow (some 7) "d3").day, (mkRow (some 7) "d3").boxId, (5 + 6 + 7) / 3,
        decide (((5 + 6 + 7 : ℚ) / 3) > 20)⟩ :=
  C1_recent_window_mean [mkRow (some 5) "d1", mkRow (some 6) "d2"] (mkRow (some 7) "d3") 20
    ((5 + 6 + 7) / 3) (by with_unfolding_all rfl)

/-- C1 counterexample: a key with four readings whose values arrived as
5, 6, 7, NaN. The claim's precondition holds (≥ 3 readings after the
append), yet the decision compares the mean 6 of the FIRST full window
[5, 6, 7] against the threshold — not the arithmetic mean of the most
recent three values [6, 7, NaN], which as a float computation is NaN
(`specLast3Mean` = none) and in particular is not 6. -/
theorem C1_nan_window_cex :
    ((cexDf ++ [nanRow]).filter fun x => sameLoc x nanRow).length = 4 ∧
    ((cexDf ++ [nanRow]).filter fun x => sameLoc x nanRow).map Row.value =
      [some 5, some 6, some 7, none] ∧
    (ingest cexDf nanRow 20).2 = some ⟨Json.str "d4", boxJson, 6, false⟩ ∧
    specLast3Mean (((cexDf ++ [nanRow]).filter fun x => sameLoc x nanRow).map Row.value) =
      none := by
  exact ⟨by with_unfolding_all rfl, by with_unfolding_all rfl,
    by with_unfolding_all rfl, by with_unfolding_all rfl⟩

/-- C3: whenever a decision is produced, `fired` is true iff the rolling
mean strictly exceeds the threshold (a mean exactly equal to the threshold
does not fire); and on the reference's last three arrivals 12.757133,
26.606711, 38.289267 for one key with threshold 20, the mean is within 0.01
of 25.884 and the warning fires. -/
theorem C3_fired_iff_strict :
    (∀ (df : List Row) (thr : ℚ) (d : AlertDecision),
        event_notification df thr = some d → (d.fired = true ↔ d.mean > thr)) ∧
    event_notification sampleDf 20 = some sampleDecision ∧
    sampleDecision.fired = true ∧
    |sampleDecision.mean - 25.884| < 1 / 100 := by
  refine ⟨?_, by with_unfolding_all rfl, ?_, ?_⟩
  · intro df thr d h
    unfold event_notification at h
    cases hL : df.getLast? with
    | none => rw [hL] at h; simp at h
    | some cur =>
      rw [hL, Option.some_bind] at h
      unfold decideForGroup at h
      cases hM : lastFullMean ((df.filter fun x => sameLoc x cur).map Row.value) with
      | none => rw [hM] at h; simp at h
      | some mv =>
        rw [hM] at h
        have hd : (⟨cur.day, cur.boxId, mv, decide (mv > thr)⟩ : AlertDecision) = d :=
          Option.some.inj h
        rw [← hd]
        simp [decide_eq_true_eq]
  · show decide (((12.757133 + 26.606711 + 38.289267 : ℚ) / 3) > 20) = true
    rw [decide_eq_true_eq]
    norm_num
  · show |((12.757133 + 26.606711 + 38.289267 : ℚ) / 3) - 25.884| < 1 / 100
    rw [abs_sub_lt_iff]
    constructor <;> norm_num

/-- C3 witness: the strict-threshold equivalence applied to the reference
scenario's decision. -/
theorem C3_fired_witness : sampleDecision.fired = true ↔ sampleDecision.mean > 20 :=
  C3_fired_iff_strict.1 sampleDf 20 sampleDecision (by with_unfolding_all rfl)

/-- C5: ingesting a reading for a different key changes neither the window
contents (the filtered group) nor the decision computed for this key's
reading: the decision depends only on the key's own readings. -/
theorem C5_key_independence (df : List Row) (r₁ r₂ : Row) (thr : ℚ)
    (h : (r₂.lat, r₂.lon) ≠ (r₁.lat, r₁.lon)) :
    ((df ++ [r₂]) ++ [r₁]).filter (fun x => sameLoc x r₁) =
      (df ++ [r₁]).filter (fun x => sameLoc x r₁) ∧
    (ingest (df ++ [r₂]) r₁ thr).2 = (ingest df r₁ thr).2 := by
  have hs : sameLoc r₂ r₁ = false := by
    cases hb : sameLoc r₂ r₁
    · rfl
    · exfalso
      have h1 : cmpEq r₂.lat r₁.lat = true ∧ cmpEq r₂.lon r₁.lon = true := by
        simpa [sameLoc, Bool.and_eq_true] using hb
      exact h (by rw [cmpEq_eq h1.1, cmpEq_eq h1.2])
  have hfil : ((df ++ [r₂]) ++ [r₁]).filter (fun x => sameLoc x r₁) =
      (df ++ [r₁]).filter (fun x => sameLoc x r₁) := by
    simp [List.filter_append, List.filter_cons, hs]
  refine ⟨hfil, ?_⟩
  show event_notification ((df ++ [r₂]) ++ [r₁]) thr = event_notification (df ++ [r₁]) thr
  unfold event_notification
  rw [List.getLast?_concat, List.getLast?_concat, Option.some_bind, Option.some_bind, hfil]

/-- C5 witness: a reading of sensor B interleaved before sensor A's third
reading leaves A's group and decision unchanged. -/
theorem C5_key_independence_witness :
    (([rowA (some 5) "d1", rowA (some 6) "d2"] ++ [rowB (some 9) "d2"]) ++
        [rowA (some 7) "d3"]).filter (fun x => sameLoc x (rowA (some 7) "d3")) =
      ([rowA (some 5) "d1", rowA (some 6) "d2"] ++ [rowA (some 7) "d3"]).filter
        (fun x => sameLoc x (rowA (some 7) "d3")) ∧
    (ingest ([rowA (some 5) "d1", rowA (some 6) "d2"] ++ [rowB (some 9) "d2"])
        (rowA (some 7) "d3") 20).2 =
      (ingest [rowA (some 5) "d1", rowA (some 6) "d2"] (rowA (some 7) "d3") 20).2 :=
  C5_key_independence [rowA (some 5) "d1", rowA (some 6) "d2"] (rowA (some 7) "d3")
    (rowB (some 9) "d2") 20
    (by
      intro hp
      have h2 := congrArg Prod.fst hp
      simp only [rowA, rowB, Json.num.injEq] at h2
      norm_num at h2)

/-- C8 (amended): the snapshot's two classes are sound — every active marker
comes from a row of the history dated at `recent_date` (the greatest day
among non-NaN-valued rows), and every inactive marker comes from a
NaN-valued row of the history. (The original claim's "partition" fails: the
classes need not cover all keys, and `recent_date` ignores the days of
NaN-valued rows — see the counterexample. The snapshot mutates no
aggregator state: it is a pure function of the history, as in the
notebook, which never writes the presentation cells' results back into
`df`.) -/
theorem C8_snapshot_classes :
    (∀ (h : List Row) (g : Json × Json), g ∈ activeBoxes h →
        ∃ rd r, recentDate h = some rd ∧ r ∈ h ∧ cmpEq r.day (Json.str rd) = true ∧
          geomOf r = g) ∧
    (∀ (h : List Row) (g : Json × Json), g ∈ inactiveBoxes h →
        ∃ r, r ∈ h ∧ r.value = none ∧ geomOf r = g) := by
  constructor
  · intro h g hg
    unfold activeBoxes at hg
    cases hrd : recentDate h with
    | none => rw [hrd] at hg; simp at hg
    | some rd =>
      rw [hrd] at hg
      obtain ⟨r, hr, hgr⟩ := List.mem_map.mp hg
      have hr2 := dedupByAux_subset Row.boxId dedupEq _ [] r hr
      have hr3 := List.mem_filter.mp hr2
      exact ⟨rd, r, rfl, hr3.1, hr3.2, hgr⟩
  · intro h g hg
    obtain ⟨r, hr, hgr⟩ := List.mem_map.mp hg
    have hr2 := dedupByAux_subset geomOf geomEq _ [] r hr
    have hr3 := List.mem_filter.mp hr2
    refine ⟨r, hr3.1, ?_, hgr⟩
    cases hval : r.value with
    | none => rfl
    | some q =>
      exfalso
      have hv : isValid r = true := by simp [isValid, hval]
      have hb := hr3.2
      simp [hv] at hb

/-- C8 witness: the soundness direction applied to the only active marker of
the `hPart` history. -/
theorem C8_snapshot_witness :
    ∃ rd r, recentDate hPart = some rd ∧ r ∈ hPart ∧
      cmpEq r.day (Json.str rd) = true ∧ geomOf r = (Json.num 1, Json.num 1) :=
  C8_snapshot_classes.1 hPart (Json.num 1, Json.num 1)
    (by
      rw [show activeBoxes hPart = [(Json.num 1, Json.num 1)] from by with_unfolding_all rfl]
      exact List.mem_singleton.mpr rfl)

/-- C8 counterexample: the classes are not a partition of the accumulated
keys. In `hPart`, sensor B has only a valid reading at the stale day
"d1", so its geometry is in neither `active_boxes` (only day "d2" rows are
active) nor `inactive_boxes` (B has no NaN reading) — "inactive = all
remaining keys" fails. Moreover in `hLate` the most recent timestamp in
the data sits on a NaN-valued row ("d2"), yet `recent_date` — computed
from valid rows only — stays "d1", so "the most recent observed timestamp
across all keys" is not what the code uses. -/
theorem C8_not_partition_cex :
    activeBoxes hPart = [(Json.num 1, Json.num 1)] ∧
    inactiveBoxes hPart = [] ∧
    rowB (some 1) "d1" ∈ hPart ∧
    geomOf (rowB (some 1) "d1") ∉ activeBoxes hPart ∧
    geomOf (rowB (some 1) "d1") ∉ inactiveBoxes hPart ∧
    recentDate hLate = some "d1" ∧
    dayStr? (rowB none "d2").day = some "d2" ∧
    ("d1" : String) < "d2" := by
  refine ⟨by with_unfolding_all rfl, by with_unfolding_all rfl, by simp [hPart], ?_, ?_,
    by with_unfolding_all rfl, rfl, by with_unfolding_all decide⟩
  · intro hmem
    rw [show activeBoxes hPart = [(Json.num 1, Json.num 1)] from
      by with_unfolding_all rfl] at hmem
    have h1 := List.mem_singleton.mp hmem
    have h2 := congrArg Prod.fst h1
    simp only [rowB, geomOf, Json.num.injEq] at h2
    norm_num at h2
  · intro hmem
    rw [show inactiveBoxes hPart = ([] : List (Json × Json)) from
      by with_unfolding_all rfl] at hmem
    exact List.not_mem_nil _ hmem

/-- C10 (implicit): the active and inactive marker sets are not disjoint:
in `hBoth`, sensor B's NaN-valued reading is dated at the most recent
date, so B's geometry appears in `active_boxes` (its row matches
`recent_date`, NaN rows not being excluded there) and simultaneously in
`inactive_boxes` (its value is NaN). -/
theorem C10_overlap :
    recentDate hBoth = some "d" ∧
    activeBoxes hBoth = [(Json.num 1, Json.num 1), (Json.num 2, Json.num 2)] ∧
    inactiveBoxes hBoth = [(Json.num 2, Json.num 2)] ∧
    (Json.num 2, Json.num 2) ∈ activeBoxes hBoth ∧
    (Json.num 2, Json.num 2) ∈ inactiveBoxes hBoth := by
  refine ⟨by with_unfolding_all rfl, by with_unfolding_all rfl,
    by with_unfolding_all rfl, ?_, ?_⟩
  · rw [show activeBoxes hBoth = [(Json.num 1, Json.num 1), (Json.num 2, Json.num 2)] from
      by with_unfolding_all rfl]
    exact List.mem_cons_of_mem _ (List.mem_singleton.mpr rfl)
  · rw [show inactiveBoxes hBoth = [(Json.num 2, Json.num 2)] from by with_unfolding_all rfl]
    exact List.mem_singleton.mpr rfl

/-- C6 witness: re-ingesting a row identical to the one already present
still appends it. -/
theorem C6_append_only_witness :
    (ingest [mkRow (some 5) "d1"] (mkRow (some 5) "d1") 20).1 =
      [mkRow (some 5) "d1"] ++ [mkRow (some 5) "d1"] ∧
    ((ingest [mkRow (some 5) "d1"] (mkRow (some 5) "d1") 20).1).length =
      [mkRow (some 5) "d1"].length + 1 ∧
    ((ingest [mkRow (some 5) "d1"] (mkRow (some 5) "d1") 20).1).take
      [mkRow (some 5) "d1"].length = [mkRow (some 5) "d1"] ∧
    (ingest (ingest [mkRow (some 5) "d1"] (mkRow (some 5) "d1") 20).1
        (mkRow (some 5) "d1") 20).1 =
      [mkRow (some 5) "d1"] ++ [mkRow (some 5) "d1", mkRow (some 5) "d1"] :=
  C6_append_only [mkRow (some 5) "d1"] (mkRow (some 5) "d1") 20

/-- C9 witness: a concrete two-entry object parses exactly as the
one-entry object of its first entry. -/
theorem C9_first_key_witness :
    parseMsg (Json.obj [("5", Json.null), ("junk", Json.nan)]) =
      parseMsg (Json.obj [("5", Json.null)]) :=
  (C9_first_key_only "5" Json.null [("junk", Json.nan)]).1
